import Mathlib

/-!
# Verification of the capability-based dispatch examples

Shallow embedding of the repository `system-design-PYTHON-` (files
`LLD/Design-Pattern/strategy.py`, `LLD/S.O.L.I.D/{srp,ocp,lsp,isp,dip}.py`)
and proofs of the spec's testable properties.

Modelling conventions:
* A Python method that can raise is embedded as a function into
  `Except PyErr _`; `.ok` is normal return, `.error` a raised exception.
* `print` calls are modelled by returning the list of emitted lines.
* A Python method returning `None` (no `return` statement) has its
  observable behaviour — emitted lines and exception status — as its
  Lean result; the `None` return value itself is omitted, being the
  same constant on both sides of every equation we prove.
* Python objects are dynamically typed: an argument annotated with an
  interface type may in fact be any object, and the annotation is not
  enforced at runtime.  The value domains below therefore include a
  representative object that does NOT provide the interface's method
  (`StrategyObj.nonRoute`), on which attribute lookup raises
  `AttributeError`, exactly as CPython would.
-/

/-- Python exceptions that can arise in these examples, plus the spec's
`ContractMismatch` (which the code never raises). -/
inductive PyErr where
  | attributeError (name : String)
  | notImplementedError (msg : String)
  | typeError (msg : String)
  | contractMismatch (msg : String)
deriving DecidableEq, Repr

/-! ## strategy.py -/

/-- The dynamic domain of objects that may be stored in a `Navigator`'s
`_strategy` field: an instance of the bare `RouteStrategy` class, one of
the three concrete strategies, or an arbitrary object that has no
`calculate_route` attribute at all (Python performs no check against the
`RouteStrategy` annotation). -/
inductive StrategyObj where
  | routeStrategyBase
  | driving
  | walking
  | cycling
  | nonRoute
deriving DecidableEq, Repr

/-- `calculate_route` as dispatched on the receiver.  The bare
`RouteStrategy.calculate_route` body is `pass`, i.e. it returns `None`
(`Option.none`); the three concrete strategies return their f-string;
on an object without the attribute the lookup raises `AttributeError`. -/
def StrategyObj.calculate_route : StrategyObj → String → String → Except PyErr (Option String)
  | .routeStrategyBase, _, _ => .ok none
  | .driving, start, «end» =>
      .ok (some ("Calculating the fastest driving route from " ++ start ++ " to " ++ «end»))
  | .walking, start, «end» =>
      .ok (some ("Calculating the safest walking route from " ++ start ++ " to " ++ «end»))
  | .cycling, start, «end» =>
      .ok (some ("Calculating the most scenic cycling route from " ++ start ++ " to " ++ «end»))
  | .nonRoute, _, _ => .error (.attributeError "calculate_route")

/-- Whether an object provides the `calculate_route` operation, i.e.
conforms to the `RouteStrategy` capability. -/
def StrategyObj.conforms : StrategyObj → Bool
  | .nonRoute => false
  | _ => true

/-- The `Navigator` context: a single `_strategy` field. -/
structure Navigator where
  strategy : StrategyObj
deriving DecidableEq, Repr

/-- `Navigator.__init__`: the body is the single assignment
`self._strategy = strategy`; it has no failure path and performs no
conformance check on its argument. -/
def Navigator.init (strategy : StrategyObj) : Except PyErr Navigator :=
  .ok ⟨strategy⟩

/-- `Navigator.set_strategy`: `self._strategy = strategy`, again a single
unconditional assignment with no check. -/
def Navigator.set_strategy (_nav : Navigator) (strategy : StrategyObj) : Navigator :=
  ⟨strategy⟩

/-- `Navigator.calculate_route`:
`return self._strategy.calculate_route(start, end)`. -/
def Navigator.calculate_route (nav : Navigator) (start «end» : String) :
    Except PyErr (Option String) :=
  nav.strategy.calculate_route start «end»

/-- A heap of `Navigator` objects, indexed by object identity: models
several simultaneously live `Navigator` instances, each with its own
`_strategy` attribute (they may alias the same strategy object, but the
attribute slots are per-instance). -/
def NavHeap : Type := Nat → Navigator

/-- `h.set_strategy i v`: the Python call `navigators[i].set_strategy(v)`
mutates the `_strategy` attribute of object `i` only. -/
def NavHeap.set_strategy (h : NavHeap) (i : Nat) (v : StrategyObj) : NavHeap :=
  fun j => if j = i then (h j).set_strategy v else h j

/-- `h.calculate_route i s e`: invoke `calculate_route` on navigator
object `i`; the method reads `_strategy` and assigns nothing, so the heap
is unchanged by the call. -/
def NavHeap.calculate_route (h : NavHeap) (i : Nat) (start «end» : String) :
    Except PyErr (Option String) :=
  (h i).calculate_route start «end»

/-! ## dip.py (the DIP-adhering second half) -/

/-- The two concrete `MessageService` implementations. -/
inductive MessageServiceObj where
  | emailService
  | smsService
deriving DecidableEq, Repr

/-- `send_message`, dispatched on the receiver.  Each implementation
prints a single channel-specific line; the `.ok` result is the list of
emitted lines and records that the call returned normally (no exception
is raised or caught anywhere in the bodies). -/
def MessageServiceObj.send_message : MessageServiceObj → String → Except PyErr (List String)
  | .emailService, message => .ok ["Sending email: " ++ message]
  | .smsService, message => .ok ["Sending SMS: " ++ message]

/-- `NotificationService` (DIP-adhering version): holds the injected
`message_service`. -/
structure NotificationService where
  message_service : MessageServiceObj
deriving DecidableEq, Repr

/-- `NotificationService.send_notification`:
`self.message_service.send_message(message)`. -/
def NotificationService.send_notification (svc : NotificationService) (message : String) :
    Except PyErr (List String) :=
  svc.message_service.send_message message

/-! ## ocp.py -/

/-- The two concrete `Database` implementations. -/
inductive DatabaseObj where
  | mySQLDatabase
  | postgreSQLDatabase
deriving DecidableEq, Repr

/-- `save`, dispatched on the receiver; `data` is modelled by the string
that its `repr` interpolates into the f-string.  Neither body can raise. -/
def DatabaseObj.save : DatabaseObj → String → List String
  | .mySQLDatabase, data => ["Saving " ++ data ++ " to MySQL database..."]
  | .postgreSQLDatabase, data => ["Saving " ++ data ++ " to PostgreSQL database..."]

/-- `UserDAO`: holds the injected `database`. -/
structure UserDAO where
  database : DatabaseObj
deriving DecidableEq, Repr

/-- `UserDAO.save_user`: `self.database.save(user_data)`. -/
def UserDAO.save_user (dao : UserDAO) (user_data : String) : List String :=
  dao.database.save user_data

/-! ## isp.py

The file contains two designs.  In the first (ISP-violating) design,
`SimplePrinter` subclasses the monolithic `Printer` ABC and implements
`scan`/`fax` by raising `NotImplementedError`.  In the second
(ISP-compliant) design, `Printer`, `Scanner` and `Fax` are separate
single-method ABCs and `SimplePrinter` subclasses only `Printer`, so it
simply has no `scan` or `fax` attribute. -/

/-- The two concrete classes of the ISP-violating first design. -/
inductive PrinterObjV where
  | simplePrinter
  | multifunctionPrinter
deriving DecidableEq, Repr

/-- `print` of the violating design (both classes implement it). -/
def PrinterObjV.printDoc : PrinterObjV → String → Except PyErr (List String)
  | _, document => .ok ["Printing: " ++ document]

/-- `scan` of the violating design: `SimplePrinter.scan` raises
`NotImplementedError("Scan not supported")`. -/
def PrinterObjV.scan : PrinterObjV → String → Except PyErr (List String)
  | .simplePrinter, _ => .error (.notImplementedError "Scan not supported")
  | .multifunctionPrinter, document => .ok ["Scanning: " ++ document]

/-- `fax` of the violating design: `SimplePrinter.fax` raises
`NotImplementedError("Fax not supported")`. -/
def PrinterObjV.fax : PrinterObjV → String → Except PyErr (List String)
  | .simplePrinter, _ => .error (.notImplementedError "Fax not supported")
  | .multifunctionPrinter, document => .ok ["Faxing: " ++ document]

/-- The two concrete classes of the ISP-compliant second design. -/
inductive PrinterObjC where
  | simplePrinter
  | multifunctionPrinter
deriving DecidableEq, Repr

/-- Dynamic method call `obj.<name>(document)` in the compliant design.
`SimplePrinter` subclasses only `Printer`, so it has a `print` attribute
and nothing else: looking up any other name raises `AttributeError`.
`MultifunctionPrinter` subclasses `Printer`, `Scanner` and `Fax` and
implements all three methods. -/
def PrinterObjC.callMethod : PrinterObjC → String → String → Except PyErr (List String)
  | .simplePrinter, name, document =>
      if name = "print" then .ok ["Printing: " ++ document]
      else .error (.attributeError name)
  | .multifunctionPrinter, name, document =>
      if name = "print" then .ok ["Printing: " ++ document]
      else if name = "scan" then .ok ["Scanning: " ++ document]
      else if name = "fax" then .ok ["Faxing: " ++ document]
      else .error (.attributeError name)

/-! ## Interface classes as classes: instantiation behaviour (for C7)

`MessageService`, `Printer` (both designs), `Scanner`, `Fax` and
`Database` subclass `abc.ABC` and have only `@abstractmethod` members;
CPython's ABC machinery makes instantiating such a class raise
`TypeError`.  `RouteStrategy` in strategy.py, by contrast, is a plain
class (no ABC, no abstractmethod): `RouteStrategy()` succeeds, and the
resulting instance's `calculate_route` executes the body `pass`,
returning `None`. -/

/-- `RouteStrategy()` — plain class, instantiation succeeds. -/
def RouteStrategy.instantiate : Except PyErr StrategyObj :=
  .ok .routeStrategyBase

/-- `MessageService()` raises `TypeError` (ABC with abstract `send_message`). -/
def MessageService.instantiate : Except PyErr MessageServiceObj :=
  .error (.typeError "Can't instantiate abstract class MessageService with abstract method send_message")

/-- `Printer()` in the violating design raises `TypeError` (abstract
`print`, `scan`, `fax`). -/
def PrinterV.instantiate : Except PyErr PrinterObjV :=
  .error (.typeError "Can't instantiate abstract class Printer with abstract methods fax, print, scan")

/-- `Printer()` in the compliant design raises `TypeError` (abstract `print`). -/
def PrinterC.instantiate : Except PyErr PrinterObjC :=
  .error (.typeError "Can't instantiate abstract class Printer with abstract method print")

/-- `Scanner()` raises `TypeError` (abstract `scan`). -/
def Scanner.instantiate : Except PyErr PrinterObjC :=
  .error (.typeError "Can't instantiate abstract class Scanner with abstract method scan")

/-- `Fax()` raises `TypeError` (abstract `fax`). -/
def Fax.instantiate : Except PyErr PrinterObjC :=
  .error (.typeError "Can't instantiate abstract class Fax with abstract method fax")

/-- `Database()` raises `TypeError` (ABC with abstract `save`). -/
def Database.instantiate : Except PyErr DatabaseObj :=
  .error (.typeError "Can't instantiate abstract class Database with abstract method save")

/-! ## lsp.py (the first, LSP-violating section: `Square` subclasses
`Rectangle`) -/

/-- The two attributes of a `Rectangle` (and of a `Square`, which
inherits them). -/
structure RectState where
  width : Int
  height : Int
deriving DecidableEq, Repr

/-- The dynamic class of the receiver, deciding which override of
`set_width`/`set_height` runs. -/
inductive RectClass where
  | rectangle
  | square
deriving DecidableEq, Repr

/-- A live object of the `Rectangle` hierarchy: its class plus its
attribute state. -/
structure RectObj where
  cls : RectClass
  state : RectState
deriving DecidableEq, Repr

/-- `Rectangle.__init__(self, width, height)`. -/
def Rectangle.init (width height : Int) : RectObj :=
  ⟨.rectangle, ⟨width, height⟩⟩

/-- `Square.__init__(self, side)` — `super().__init__(side, side)`. -/
def Square.init (side : Int) : RectObj :=
  ⟨.square, ⟨side, side⟩⟩

/-- `set_width`, dispatched on the receiver's class:
`Rectangle.set_width` assigns only `self.width`; `Square.set_width`
assigns both `self.width` and `self.height`. -/
def RectObj.set_width (o : RectObj) (width : Int) : RectObj :=
  match o.cls with
  | .rectangle => { o with state := { o.state with width := width } }
  | .square => { o with state := { width := width, height := width } }

/-- `set_height`, dispatched on the receiver's class:
`Rectangle.set_height` assigns only `self.height`; `Square.set_height`
assigns both. -/
def RectObj.set_height (o : RectObj) (height : Int) : RectObj :=
  match o.cls with
  | .rectangle => { o with state := { o.state with height := height } }
  | .square => { o with state := { width := height, height := height } }

/-- `area`: `self.width * self.height` (inherited unchanged by `Square`). -/
def RectObj.area (o : RectObj) : Int :=
  o.state.width * o.state.height

/-- `use_rectangle(rectangle)`: `set_width(5)`, then `set_height(4)`,
then print the expected/actual line.  Result: the mutated object and the
printed line. -/
def use_rectangle (rectangle : RectObj) : RectObj × String :=
  let r₁ := rectangle.set_width 5
  let r₂ := r₁.set_height 4
  (r₂, "Expected area: 20, Actual area: " ++ toString r₂.area)

/-! ## srp.py -/

/-- `Marker`: name, color, price.  Python numeric values are modelled as
rationals. -/
structure Marker where
  name : String
  color : String
  price : ℚ
deriving DecidableEq, Repr

/-- `Invoice`: a marker and a quantity. -/
structure Invoice where
  marker : Marker
  quantity : ℕ
deriving DecidableEq, Repr

/-- `Invoice.calculate_total`: `return self.marker.price * self.quantity`. -/
def Invoice.calculate_total (inv : Invoice) : ℚ :=
  inv.marker.price * inv.quantity

/-- `Invoice.calculate_total` in state-passing form: the second component
is the post-state of `self` (and, through it, of the shared `Marker`).
The body is a single `return` with no attribute assignment, so the
post-state is the input state. -/
def Invoice.calculate_totalM (inv : Invoice) : Invoice × ℚ :=
  (inv, inv.marker.price * inv.quantity)

/-- `InvoicePrinter`: holds the invoice. -/
structure InvoicePrinter where
  invoice : Invoice
deriving DecidableEq, Repr

/-- `InvoicePrinter.print_invoice`: computes `total` via
`calculate_total` and prints three lines. -/
def InvoicePrinter.print_invoice (p : InvoicePrinter) : List String :=
  let total := p.invoice.calculate_total
  ["Invoice for " ++ p.invoice.marker.name ++ " (" ++ p.invoice.marker.color ++ "):",
   "Quantity: " ++ toString p.invoice.quantity,
   "Total: $" ++ toString total]

/-- `InvoiceSaver`: holds the invoice. -/
structure InvoiceSaver where
  invoice : Invoice
deriving DecidableEq, Repr

/-- `InvoiceSaver.save_to_file`: computes `total` via `calculate_total`
and writes the same three lines, each newline-terminated, to `filename`.
Result: the written file as (name, content). -/
def InvoiceSaver.save_to_file (s : InvoiceSaver) (filename : String) : String × String :=
  let total := s.invoice.calculate_total
  (filename,
    "Invoice for " ++ s.invoice.marker.name ++ " (" ++ s.invoice.marker.color ++ "):\n" ++
    ("Quantity: " ++ toString s.invoice.quantity ++ "\n") ++
    ("Total: $" ++ toString total ++ "\n"))

/-! ## Claims C1 and C2 -/

/-- C1.  Forwarding is transparent: for every bound Variant and every
argument tuple, invoking the Dispatcher's operation
(`Navigator.calculate_route`, `NotificationService.send_notification`,
`UserDAO.save_user`) yields exactly the result of calling the bound
Variant's operation directly; the dispatchers add no transformation to
arguments or results. -/
theorem forwarding_transparent :
    (∀ (nav : Navigator) (start «end» : String),
      nav.calculate_route start «end» = nav.strategy.calculate_route start «end»)
    ∧ (∀ (svc : NotificationService) (message : String),
      svc.send_notification message = svc.message_service.send_message message)
    ∧ (∀ (dao : UserDAO) (user_data : String),
      dao.save_user user_data = dao.database.save user_data) :=
  ⟨fun _ _ _ => rfl, fun _ _ => rfl, fun _ _ => rfl⟩

/-- C2.  Rebinding is immediate and total: after `set_strategy v₂` the
navigator's whole state is exactly the binding to `v₂` — independent of
whatever was bound before — so every subsequent invocation returns
`v₂`'s result and nothing of the previous Variant remains observable. -/
theorem rebinding_immediate_total :
    (∀ (nav : Navigator) (v₂ : StrategyObj) (start «end» : String),
      (nav.set_strategy v₂).calculate_route start «end» = v₂.calculate_route start «end»)
    ∧ (∀ (nav : Navigator) (v₂ : StrategyObj), nav.set_strategy v₂ = ⟨v₂⟩) :=
  ⟨fun _ _ _ _ => rfl, fun _ _ => rfl⟩

/-! ## Claim C3 -/

/-- C3, counterexample.  `nonRoute` does not conform to the
`RouteStrategy` capability, yet `Navigator.__init__` accepts it without
raising `ContractMismatch` (construction succeeds and binds it), and
`set_strategy` likewise rebinds to it unconditionally; the
non-conformance only surfaces later, at invoke time, as an
`AttributeError`. -/
theorem construct_unchecked_cex :
    StrategyObj.conforms .nonRoute = false
    ∧ Navigator.init .nonRoute = .ok ⟨.nonRoute⟩
    ∧ Navigator.set_strategy ⟨.driving⟩ .nonRoute = ⟨.nonRoute⟩
    ∧ Navigator.calculate_route ⟨.nonRoute⟩ "Home" "Office"
        = .error (.attributeError "calculate_route") :=
  ⟨rfl, rfl, rfl, rfl⟩

/-- C3, amended.  `Navigator.__init__` and `set_strategy` perform no
conformance check at all and never fail: they accept any object —
conforming or not — and update the binding fully, in one assignment
(never partially).  No `ContractMismatch` is ever raised; a
non-conforming binding is only detected at invoke time, when attribute
lookup raises `AttributeError`. -/
theorem construct_rebind_unchecked :
    (∀ v : StrategyObj, Navigator.init v = .ok ⟨v⟩)
    ∧ (∀ (nav : Navigator) (v : StrategyObj), nav.set_strategy v = ⟨v⟩)
    ∧ (∀ start «end» : String,
        Navigator.calculate_route ⟨.nonRoute⟩ start «end»
          = .error (.attributeError "calculate_route")) :=
  ⟨fun _ => rfl, fun _ _ => rfl, fun _ _ => rfl⟩

/-! ## Claim C4 -/

/-- C4, counterexample.  In the ISP-violating design, `SimplePrinter` is
a print-only Variant, yet it is invocable for `scan` and `fax`, and those
invocations raise `NotImplementedError` at runtime (the source's own
demo line `simple_printer.scan("My Document")` does exactly this) —
contradicting the claim that a not-supported failure never surfaces at
call time. -/
theorem undeclared_op_runtime_cex :
    PrinterObjV.scan .simplePrinter "My Document"
        = .error (.notImplementedError "Scan not supported")
    ∧ PrinterObjV.fax .simplePrinter "My Document"
        = .error (.notImplementedError "Fax not supported") :=
  ⟨rfl, rfl⟩

/-- C4, amended.  Only the ISP-compliant second design has the claimed
property: its `SimplePrinter` declares just the `Printer` capability, so
it has no `scan`/`fax` method at all — invoking any undeclared operation
fails as an absent attribute (`AttributeError`), and no invocation of the
compliant `SimplePrinter` can ever produce a `NotImplementedError`.  The
violating first design's `SimplePrinter` does raise
`NotImplementedError` at call time for `scan` and `fax`. -/
theorem isp_compliant_no_not_implemented (name document msg : String) :
    PrinterObjC.callMethod .simplePrinter "print" document = .ok ["Printing: " ++ document]
    ∧ PrinterObjC.callMethod .simplePrinter "scan" document = .error (.attributeError "scan")
    ∧ PrinterObjC.callMethod .simplePrinter "fax" document = .error (.attributeError "fax")
    ∧ PrinterObjC.callMethod .simplePrinter name document ≠ .error (.notImplementedError msg)
    ∧ (∀ d : String, PrinterObjV.scan .simplePrinter d = .error (.notImplementedError "Scan not supported"))
    ∧ (∀ d : String, PrinterObjV.fax .simplePrinter d = .error (.notImplementedError "Fax not supported")) := by
  refine ⟨by simp [PrinterObjC.callMethod], by simp [PrinterObjC.callMethod],
    by simp [PrinterObjC.callMethod], ?_, fun _ => rfl, fun _ => rfl⟩
  by_cases hname : name = "print" <;> simp [PrinterObjC.callMethod, hname]

/-! ## Claim C5 -/

/-- C5.  Under the rectangle contract driven by `use_rectangle`:
`Rectangle.set_width` changes only the width and `set_height` only the
height, so for a `Rectangle` the call sequence `set_width(5)`,
`set_height(4)` always leaves area 20; `Square`, which mutates the other
dimension whenever one is set, yields area 16 under the same sequence
and visibly violates the frame property (`set_width` changes its
height). -/
theorem rectangle_frame_square_violation (st : RectState) (w h side : Int) :
    (RectObj.set_width ⟨.rectangle, st⟩ w).state = ⟨w, st.height⟩
    ∧ (RectObj.set_height ⟨.rectangle, st⟩ h).state = ⟨st.width, h⟩
    ∧ (use_rectangle ⟨.rectangle, st⟩).1.area = 20
    ∧ (use_rectangle (Square.init side)).1.area = 16
    ∧ ((Square.init 2).set_width 5).state.height ≠ (Square.init 2).state.height :=
  ⟨rfl, rfl, rfl, rfl, by decide⟩

/-! ## Claim C6 -/

/-- C6.  Each delivery Variant, for every message payload, performs its
side-effecting delivery action (emits exactly its channel-specific line
carrying the payload) and reports the outcome to the caller as its
result: the call returns `.ok` (normal return = success); a raised fault
would be an `.error` and the bodies contain no handler that could
swallow one — nothing is caught anywhere in `send_message`. -/
theorem delivery_variants_report (message : String) :
    MessageServiceObj.send_message .emailService message
        = .ok ["Sending email: " ++ message]
    ∧ MessageServiceObj.send_message .smsService message
        = .ok ["Sending SMS: " ++ message] :=
  ⟨rfl, rfl⟩

/-! ## Claim C7 -/

/-- C7, counterexample.  `RouteStrategy` is a plain class, not an ABC:
it can be instantiated, the instance can be invoked directly (its
`calculate_route` body `pass` returns `None`), and it even functions as
a Variant inside a `Navigator` — contradicting the claim that every
listed capability interface cannot be instantiated and invoked. -/
theorem route_strategy_instantiable_cex :
    RouteStrategy.instantiate = .ok .routeStrategyBase
    ∧ StrategyObj.calculate_route .routeStrategyBase "Home" "Office" = .ok none
    ∧ Navigator.calculate_route ⟨.routeStrategyBase⟩ "Home" "Office" = .ok none :=
  ⟨rfl, rfl, rfl⟩

/-- C7, amended.  The ABC-based interfaces — `MessageService`, `Printer`
(both designs), `Scanner`, `Fax`, `Database` — are pure specifications:
instantiating any of them raises `TypeError`, so the bare interface
supplies no invocable behaviour.  `RouteStrategy`, however, is a plain
class: it instantiates successfully and its `calculate_route` supplies
the trivial behaviour of returning `None`. -/
theorem interfaces_pure_except_route_strategy (start «end» : String) :
    MessageService.instantiate
        = .error (.typeError "Can't instantiate abstract class MessageService with abstract method send_message")
    ∧ PrinterV.instantiate
        = .error (.typeError "Can't instantiate abstract class Printer with abstract methods fax, print, scan")
    ∧ PrinterC.instantiate
        = .error (.typeError "Can't instantiate abstract class Printer with abstract method print")
    ∧ Scanner.instantiate
        = .error (.typeError "Can't instantiate abstract class Scanner with abstract method scan")
    ∧ Fax.instantiate
        = .error (.typeError "Can't instantiate abstract class Fax with abstract method fax")
    ∧ Database.instantiate
        = .error (.typeError "Can't instantiate abstract class Database with abstract method save")
    ∧ RouteStrategy.instantiate = .ok .routeStrategyBase
    ∧ StrategyObj.calculate_route .routeStrategyBase start «end» = .ok none :=
  ⟨rfl, rfl, rfl, rfl, rfl, rfl, rfl, rfl⟩

/-! ## Claim C8 -/

/-- C8.  Each route-calculation Variant is a total function of the two
location strings: for every pair of inputs — the empty string included —
it returns `.ok` of its descriptive template with both inputs passed
through verbatim, never an exception; being a Lean function of exactly
its arguments, it is deterministic and side-effect-free. -/
theorem route_variants_total_pure (start «end» : String) :
    StrategyObj.calculate_route .driving start «end»
        = .ok (some ("Calculating the fastest driving route from " ++ start ++ " to " ++ «end»))
    ∧ StrategyObj.calculate_route .walking start «end»
        = .ok (some ("Calculating the safest walking route from " ++ start ++ " to " ++ «end»))
    ∧ StrategyObj.calculate_route .cycling start «end»
        = .ok (some ("Calculating the most scenic cycling route from " ++ start ++ " to " ++ «end»))
    ∧ StrategyObj.calculate_route .driving "" ""
        = .ok (some "Calculating the fastest driving route from  to ") :=
  ⟨rfl, rfl, rfl, rfl⟩

/-! ## Claim C9 -/

/-- C9.  Two distinct `Navigator` objects bound to the same strategy
object do not interfere: rebinding one leaves the other's `_strategy`
attribute — and hence all of its subsequent invocations — unchanged. -/
theorem dispatchers_independent (h : NavHeap) (i j : Nat) (v : StrategyObj)
    (start «end» : String) (hne : j ≠ i) (_hshared : (h j).strategy = (h i).strategy) :
    NavHeap.set_strategy h i v j = h j
    ∧ NavHeap.calculate_route (NavHeap.set_strategy h i v) j start «end»
        = NavHeap.calculate_route h j start «end» := by
  constructor
  · simp [NavHeap.set_strategy, hne]
  · simp [NavHeap.calculate_route, NavHeap.set_strategy, hne]

/-- C9, witness: two navigators both bound to the driving strategy;
rebinding navigator 0 to walking leaves navigator 1's binding and route
results untouched. -/
theorem dispatchers_independent_witness :
    NavHeap.set_strategy (fun _ => Navigator.mk StrategyObj.driving) 0 StrategyObj.walking 1
        = Navigator.mk StrategyObj.driving
    ∧ NavHeap.calculate_route
        (NavHeap.set_strategy (fun _ => Navigator.mk StrategyObj.driving) 0 StrategyObj.walking)
        1 "Home" "Office"
      = NavHeap.calculate_route (fun _ => Navigator.mk StrategyObj.driving) 1 "Home" "Office" :=
  dispatchers_independent (fun _ => Navigator.mk StrategyObj.driving) 0 1
    StrategyObj.walking "Home" "Office" (by decide) rfl

/-! ## Claim C10 -/

/-- C10.  `Invoice.calculate_total` returns exactly `price * quantity`
and leaves the invoice (hence the marker) unchanged; the invoice lines
produced by `InvoicePrinter.print_invoice` and the file content written
by `InvoiceSaver.save_to_file` both carry the same total line, computed
from that same `calculate_total`. -/
theorem invoice_total_consistent (m : Marker) (q : ℕ) (filename : String) :
    Invoice.calculate_total ⟨m, q⟩ = m.price * q
    ∧ (Invoice.calculate_totalM ⟨m, q⟩).1 = ⟨m, q⟩
    ∧ InvoicePrinter.print_invoice ⟨⟨m, q⟩⟩ =
        ["Invoice for " ++ m.name ++ " (" ++ m.color ++ "):",
         "Quantity: " ++ toString q,
         "Total: $" ++ toString (Invoice.calculate_total ⟨m, q⟩)]
    ∧ (InvoiceSaver.save_to_file ⟨⟨m, q⟩⟩ filename).2 =
        "Invoice for " ++ m.name ++ " (" ++ m.color ++ "):\n" ++
        ("Quantity: " ++ toString q ++ "\n") ++
        ("Total: $" ++ toString (Invoice.calculate_total ⟨m, q⟩) ++ "\n") :=
  ⟨rfl, rfl, rfl, rfl⟩
